import Mathlib

set_option linter.unusedVariables false

/-!
Shallow embedding of the skipchain replication handler
(`blockchain/skipchain/handler.go`): the one-shot genesis-propagation RPC
`handler.Process` and the catch-up streaming RPC `handler.Stream`.

The handler's collaborators (block store `h.db`, block factory, consensus
engine, encoder, and the stream's sender/receiver) are Go interfaces whose
implementations live outside the handler; they are modelled as explicit
function parameters bundled in an environment.  Effectful calls are modelled
as pure functions returning `Except`; the sequence of responses written to the
stream's send half is returned as a list.
-/

namespace Skipchain

/-- A digest as handled by `bytes.Equal`: a byte string compared by length and
content.  Bytes are `Nat`s; only equality of digests matters to the handler. -/
abbrev Digest := List Nat

/-- The zero value of the fixed-size 32-byte hash array of a `SkipBlock`:
32 zero bytes. -/
def zeroDigest : Digest := List.replicate 32 0

/-- In-memory skipchain block (`skipchain.SkipBlock`), restricted to the fields
the handler touches: `GetIndex()`, the `hash` field compared by the loop
guard, the link to the previous block and the application payload. -/
structure SkipBlock where
  index : Nat
  hash : Digest
  previousHash : Digest
  payload : List Nat
  deriving DecidableEq, Repr

/-- The zero-valued `SkipBlock`, i.e. Go's `var block SkipBlock`: all fields at
their zero values, in particular `hash` is the all-zero 32-byte array. -/
def zeroSkipBlock : SkipBlock :=
  { index := 0, hash := zeroDigest, previousHash := zeroDigest, payload := [] }

/-- Errors.  The handler wraps every collaborator error with `xerrors.Errorf`;
each wrapping site of `handler.go` is one constructor.  An error produced by a
collaborator itself is `fault` with an identifying code. -/
inductive Err where
  | fault (code : Nat)
  | couldntReceive (e : Err)
  | invalidMsgType
  | readErr (i : Nat) (e : Err)
  | packErr (e : Err)
  | chainErr (i : Nat) (e : Err)
  | packAnyErr (e : Err)
  | sendErr (e : Err)
  | decodeErr (e : Err)
  | insertErr (e : Err)
  | unknownMsgType
  | notFound
  | conflict
  | outOfOrder
  | duplicate
  | linkage
  deriving DecidableEq, Repr

/-- Protobuf messages the handler can receive (`mino.Request.Message` for
`Process`, the first streamed message for `Stream`).  `other` stands for any
further `proto.Message` type. -/
inductive Message where
  | blockRequest (tgt : Digest)
  | propagateGenesis (genesis : List Nat)
  | other (tag : Nat)
  deriving DecidableEq, Repr

/-- Whether the message is a `*BlockRequest` (the type assertion
`msg.(*BlockRequest)` of `handler.Stream`). -/
def Message.isBlockRequest : Message → Bool
  | .blockRequest _ => true
  | _ => false

/-- Whether the message is a `*PropagateGenesis` (the type switch of
`handler.Process`). -/
def Message.isPropagateGenesis : Message → Bool
  | .propagateGenesis _ => true
  | _ => false

/-- A packed block (`*BlockProto`), wire bytes produced by the encoder and not
inspected by the handler. -/
structure BlockProto where
  data : List Nat
  deriving DecidableEq, Repr

/-- A consensus chain as returned by `h.consensus.GetChain`, not inspected by
the handler. -/
structure Chain where
  links : List Nat
  deriving DecidableEq, Repr

/-- A packed chain (`*any.Any`), wire bytes produced by `encoder.PackAny`. -/
structure PackedAny where
  data : List Nat
  deriving DecidableEq, Repr

/-- The catch-up wire response `BlockResponse`: a packed block and, when set,
a packed chain. -/
structure BlockResponse where
  block : BlockProto
  chain : Option PackedAny
  deriving DecidableEq, Repr

/-- A network address (`mino.Address`), treated as an identifier. -/
abbrev Addr := Nat

/-- The collaborators of `handler.Stream`, as one environment.

* `store` — the block store behind `h.db.Read`.  `h.db` is a collaborator
  outside the handler; modelled from the spec: an ordered, indexed log where
  `Read i` returns the block at sequence position `i` and fails with a
  not-found error for any other index.
* `pack`, `packAny` — the encoder (`h.encoder.Pack`, `h.encoder.PackAny`).
* `getChain` — the consensus engine (`h.consensus.GetChain`).
* `send` — the stream's send half (`out.Send` followed by the channel
  receive); it is given the count of previously attempted sends, standing for
  the transport's evolving state.
* `recv` — the outcome of the single `in.Recv(context.Background())` call.
* `cancelled` — the caller-side cancellation signal before iteration `i` of
  the send loop.  `handler.Stream` receives no context from its caller (the
  only context it ever builds is `context.Background()`), so no code path of
  the handler can consult this field; it is recorded here so that theorems can
  speak about the handler's (in)dependence on cancellation. -/
structure StreamEnv where
  store : List SkipBlock
  pack : SkipBlock → Except Err BlockProto
  getChain : Digest → Except Err Chain
  packAny : Chain → Except Err PackedAny
  send : Nat → BlockResponse → Addr → Except Err Unit
  recv : Except Err (Addr × Message)
  cancelled : Nat → Bool

namespace handler

/-- The body of one iteration of the `handler.Stream` loop after a successful
`Read`: pack the block and, only when its index is positive, also fetch and
pack the consensus chain (the source comments that for the genesis block
there is no chain to send alongside). -/
def buildResponse (env : StreamEnv) (block : SkipBlock) : Except Err BlockResponse :=
  match env.pack block with
  | .error e => .error (.packErr e)
  | .ok blockpb =>
    if block.index > 0 then
      match env.getChain block.hash with
      | .error e => .error (.chainErr block.index e)
      | .ok chain =>
        match env.packAny chain with
        | .error e => .error (.packAnyErr e)
        | .ok chainpb => .ok { block := blockpb, chain := some chainpb }
    else
      .ok { block := blockpb, chain := none }

/-- The `for i := int64(0); !bytes.Equal(block.hash[:], req.To); i++` loop of
`handler.Stream`.  `block` is the loop variable (initially the zero-valued
`SkipBlock`), `i` the cursor, `c` the number of sends already attempted.
Returns the responses sent, in order, and the function's return value.
The cursor is a `Nat`: the Go `int64` starts at `0`, only increments, and the
store read fails long before any overflow. -/
def streamLoop (env : StreamEnv) (tgt : Digest) (addr : Addr)
    (block : SkipBlock) (i : Nat) (c : Nat) :
    List BlockResponse × Except Err Unit :=
  if block.hash = tgt then
    ([], .ok ())
  else
    match h : env.store[i]? with
    | none => ([], .error (.readErr i .notFound))
    | some b =>
      match buildResponse env b with
      | .error e => ([], .error e)
      | .ok resp =>
        match env.send c resp addr with
        | .error e => ([], .error (.sendErr e))
        | .ok _ =>
          let r := streamLoop env tgt addr b (i + 1) (c + 1)
          (resp :: r.1, r.2)
termination_by env.store.length + 1 - i
decreasing_by
  have hi : i < env.store.length := by
    by_contra hge
    rw [List.getElem?_eq_none (Nat.le_of_not_lt hge)] at h
    exact Option.noConfusion h
  omega

/-- Embedding of `handler.Stream`: receive the first message, require it to be
a `*BlockRequest`, then stream block responses until the last sent block's
hash equals the requested target.  Returns the responses sent on `out` and
the error value of `Stream`. -/
def Stream (env : StreamEnv) : List BlockResponse × Except Err Unit :=
  match env.recv with
  | .error e => ([], .error (.couldntReceive e))
  | .ok (addr, msg) =>
    match msg with
    | .blockRequest tgt => streamLoop env tgt addr zeroSkipBlock 0 0
    | _ => ([], .error .invalidMsgType)

/-- Embedding of `handler.Process`: handles `*PropagateGenesis` only.
`decodeBlock` (`h.blockFactory.decodeBlock`) and `insertBlock`
(`h.operations.insertBlock`) are collaborators outside the handler and are
passed in; the store they act on is threaded explicitly.  The result is the
new store, the `proto.Message` reply (always `nil` in this handler) and the
error value. -/
def Process (decodeBlock : List Nat → Except Err SkipBlock)
    (insertBlock : SkipBlock → List SkipBlock → Except Err (List SkipBlock))
    (store : List SkipBlock) (msg : Message) :
    List SkipBlock × Option Unit × Option Err :=
  match msg with
  | .propagateGenesis bytes =>
    match decodeBlock bytes with
    | .error e => (store, none, some (.decodeErr e))
    | .ok genesis =>
      match insertBlock genesis store with
      | .error e => (store, none, some (.insertErr e))
      | .ok store2 => (store2, none, none)
  | _ => (store, none, some .unknownMsgType)

end handler

namespace operations

/-- Modelled from the spec: `operations.insertBlock` is not under `src/` (only
its caller `handler.Process` is).  Per spec section 4.4 step 3 and sections
3 and 4.1: a genesis block whose `previousHash` is not empty (section 3 says
absent or zero for genesis) fails with a linkage error; otherwise inserting a
genesis when the store already holds the identical genesis succeeds
idempotently, and a different block at index 0 is a conflict.  A non-genesis
append fails out-of-order when the index is not the current length, as a
duplicate when the hash is already stored, and as a linkage error when
`previousHash` does not match the last block's hash. -/
def insertBlock (block : SkipBlock) (store : List SkipBlock) :
    Except Err (List SkipBlock) :=
  if block.index = 0 then
    if block.previousHash = [] ∨ block.previousHash = zeroDigest then
      match store[0]? with
      | none => .ok [block]
      | some g => if g = block then .ok store else .error .conflict
    else
      .error .linkage
  else if block.index ≠ store.length then
    .error .outOfOrder
  else if store.any (fun x => decide (x.hash = block.hash)) then
    .error .duplicate
  else
    match store.getLast? with
    | some prev =>
      if block.previousHash = prev.hash then .ok (store ++ [block])
      else .error .linkage
    | none => .error .outOfOrder

end operations

/-- A demonstration hash for block `n`: non-zero, 32 bytes, pairwise distinct
and distinct from `zeroDigest`. -/
def demoHash (n : Nat) : Digest := (n + 1) :: List.replicate 31 0

/-- A demonstration block of index `n`, hash-linked to its predecessor. -/
def demoBlock (n : Nat) : SkipBlock :=
  { index := n, hash := demoHash n,
    previousHash := if n = 0 then zeroDigest else demoHash (n - 1),
    payload := [] }

/-- A demonstration encoder: packs a block as its hash bytes. -/
def demoPack (b : SkipBlock) : BlockProto := { data := b.hash }

/-- A demonstration consensus engine: the chain to a block is its digest. -/
def demoChain (d : Digest) : Chain := { links := d }

/-- A demonstration chain packer. -/
def demoPackAny (ch : Chain) : PackedAny := { data := ch.links }

/-- A stream environment whose encoder, consensus engine and transport always
succeed, with the given store, received first message and cancellation
signal. -/
def demoEnv (store : List SkipBlock) (recv : Except Err (Addr × Message))
    (cancelled : Nat → Bool) : StreamEnv :=
  { store := store
    pack := fun b => .ok (demoPack b)
    getChain := fun d => .ok (demoChain d)
    packAny := fun ch => .ok (demoPackAny ch)
    send := fun _ _ _ => .ok ()
    recv := recv
    cancelled := cancelled }

/-- The catch-up scenario environment: a store of six blocks, successful
collaborators `pk`, `gc`, `pa`, and a first message requesting the hash of
the sixth block. -/
def catchupEnv (b0 b1 b2 b3 b4 b5 : SkipBlock) (a : Addr)
    (pk : SkipBlock → BlockProto) (gc : Digest → Chain) (pa : Chain → PackedAny) :
    StreamEnv :=
  { store := [b0, b1, b2, b3, b4, b5]
    pack := fun b => .ok (pk b)
    getChain := fun d => .ok (gc d)
    packAny := fun ch => .ok (pa ch)
    send := fun _ _ _ => .ok ()
    recv := .ok (a, .blockRequest b5.hash)
    cancelled := fun _ => false }

/-- A store with one non-genesis-hash block and a request for the zero digest,
which is the hash of no stored block. -/
def envC2 : StreamEnv :=
  demoEnv [demoBlock 0] (.ok (0, .blockRequest zeroDigest)) (fun _ => false)

/-- A store with one block and a request for a hash stored nowhere. -/
def envC2w : StreamEnv :=
  demoEnv [demoBlock 0] (.ok (0, .blockRequest (demoHash 7))) (fun _ => false)

/-- A store holding only the genesis block, whose hash is requested. -/
def envC3 : StreamEnv :=
  demoEnv [demoBlock 0] (.ok (4, .blockRequest (demoBlock 0).hash)) (fun _ => false)

/-- An environment whose first receive fails. -/
def envC4 : StreamEnv := demoEnv [] (.error (.fault 1)) (fun _ => false)

/-- A two-block catch-up request on a stream whose caller has cancelled from
the very start (the signal is raised before every iteration). -/
def envC7 : StreamEnv :=
  demoEnv [demoBlock 0, demoBlock 1] (.ok (0, .blockRequest (demoBlock 1).hash))
    (fun _ => true)

/-- An environment whose transport fails every send. -/
def envC8 : StreamEnv :=
  { store := [demoBlock 0]
    pack := fun b => .ok (demoPack b)
    getChain := fun d => .ok (demoChain d)
    packAny := fun ch => .ok (demoPackAny ch)
    send := fun _ _ _ => .error (.fault 3)
    recv := .ok (0, .blockRequest (demoBlock 0).hash)
    cancelled := fun _ => false }

/-- An environment with a non-empty store whose every other collaborator
fails, and a request for the zero digest: any read, pack or send would
surface as an error. -/
def envC9 : StreamEnv :=
  { store := [demoBlock 0]
    pack := fun _ => .error (.fault 4)
    getChain := fun _ => .error (.fault 5)
    packAny := fun _ => .error (.fault 6)
    send := fun _ _ _ => .error (.fault 7)
    recv := .ok (3, .blockRequest zeroDigest)
    cancelled := fun _ => false }

namespace handler

/-- One step of the loop: the guard matches, so the loop exits cleanly without
reading, building or sending anything. -/
lemma streamLoop_done (env : StreamEnv) (tgt : Digest) (addr : Addr)
    (block : SkipBlock) (i c : Nat) (hg : block.hash = tgt) :
    streamLoop env tgt addr block i c = ([], .ok ()) := by
  rw [streamLoop, if_pos hg]

/-- One step of the loop: the guard fails and the store has no block at the
cursor, so the loop aborts with the wrapped read error. -/
lemma streamLoop_read_fail (env : StreamEnv) (tgt : Digest) (addr : Addr)
    (block : SkipBlock) (i c : Nat) (hg : block.hash ≠ tgt)
    (hr : env.store[i]? = none) :
    streamLoop env tgt addr block i c = ([], .error (.readErr i .notFound)) := by
  rw [streamLoop, if_neg hg]
  split
  · rfl
  · rename_i b heq
    rw [hr] at heq
    exact Option.noConfusion heq

/-- One step of the loop: the read succeeds but building the response fails,
so the loop aborts with that error. -/
lemma streamLoop_build_fail (env : StreamEnv) (tgt : Digest) (addr : Addr)
    (block : SkipBlock) (i c : Nat) (b : SkipBlock) (e : Err)
    (hg : block.hash ≠ tgt) (hr : env.store[i]? = some b)
    (hb : buildResponse env b = .error e) :
    streamLoop env tgt addr block i c = ([], .error e) := by
  rw [streamLoop, if_neg hg]
  split
  · rename_i heq
    rw [hr] at heq
    exact Option.noConfusion heq
  · rename_i b' heq
    rw [hr] at heq
    cases heq
    simp only [hb]

/-- One step of the loop: read and build succeed but the send fails, so the
loop aborts at once with the wrapped send error and contributes no
response. -/
lemma streamLoop_send_fail (env : StreamEnv) (tgt : Digest) (addr : Addr)
    (block : SkipBlock) (i c : Nat) (b : SkipBlock) (resp : BlockResponse) (e : Err)
    (hg : block.hash ≠ tgt) (hr : env.store[i]? = some b)
    (hb : buildResponse env b = .ok resp)
    (hs : env.send c resp addr = .error e) :
    streamLoop env tgt addr block i c = ([], .error (.sendErr e)) := by
  rw [streamLoop, if_neg hg]
  split
  · rename_i heq
    rw [hr] at heq
    exact Option.noConfusion heq
  · rename_i b' heq
    rw [hr] at heq
    cases heq
    simp only [hb, hs]

/-- One step of the loop: read, build and send all succeed, so the response is
recorded and the loop continues with the read block and incremented cursor. -/
lemma streamLoop_send_ok (env : StreamEnv) (tgt : Digest) (addr : Addr)
    (block : SkipBlock) (i c : Nat) (b : SkipBlock) (resp : BlockResponse)
    (hg : block.hash ≠ tgt) (hr : env.store[i]? = some b)
    (hb : buildResponse env b = .ok resp)
    (hs : env.send c resp addr = .ok ()) :
    streamLoop env tgt addr block i c =
      ((resp :: (streamLoop env tgt addr b (i + 1) (c + 1)).1),
       (streamLoop env tgt addr b (i + 1) (c + 1)).2) := by
  conv_lhs => rw [streamLoop]
  rw [if_neg hg]
  split
  · rename_i heq
    rw [hr] at heq
    exact Option.noConfusion heq
  · rename_i b' heq
    rw [hr] at heq
    cases heq
    simp only [hb, hs]

/-- Response built for the genesis block: packed block, no chain. -/
lemma buildResponse_genesis (env : StreamEnv) (b : SkipBlock) (p : BlockProto)
    (hp : env.pack b = .ok p) (hi : b.index = 0) :
    buildResponse env b = .ok { block := p, chain := none } := by
  rw [buildResponse]
  simp only [hp, hi]
  rfl

/-- Response built for a non-genesis block: packed block plus the packed
consensus chain for the block's hash. -/
lemma buildResponse_with_chain (env : StreamEnv) (b : SkipBlock) (p : BlockProto)
    (ch : Chain) (cp : PackedAny)
    (hp : env.pack b = .ok p) (hi : b.index > 0)
    (hc : env.getChain b.hash = .ok ch) (hpa : env.packAny ch = .ok cp) :
    buildResponse env b = .ok { block := p, chain := some cp } := by
  rw [buildResponse]
  simp only [hp, if_pos hi, hc, hpa]

/-- Fuel-indexed form of: the loop only returns a `nil` error when its guard
eventually matched, i.e. the target is the current block's hash or the hash
of some stored block. -/
lemma streamLoop_ok_mem_aux (env : StreamEnv) (tgt : Digest) (addr : Addr) :
    ∀ (n : Nat) (block : SkipBlock) (i c : Nat), env.store.length + 1 - i ≤ n →
      (streamLoop env tgt addr block i c).2 = .ok () →
      block.hash = tgt ∨ ∃ b ∈ env.store, b.hash = tgt := by
  intro n
  induction n with
  | zero =>
    intro block i c hle h
    by_cases hg : block.hash = tgt
    · exact Or.inl hg
    · rw [streamLoop_read_fail env tgt addr block i c hg
        (List.getElem?_eq_none (by omega))] at h
      exact Except.noConfusion h
  | succ n ih =>
    intro block i c hle h
    by_cases hg : block.hash = tgt
    · exact Or.inl hg
    · cases hr : env.store[i]? with
      | none =>
        rw [streamLoop_read_fail env tgt addr block i c hg hr] at h
        exact Except.noConfusion h
      | some b =>
        have hlen : i < env.store.length := by
          by_contra hge
          rw [List.getElem?_eq_none (by omega)] at hr
          exact Option.noConfusion hr
        cases hb : buildResponse env b with
        | error e =>
          rw [streamLoop_build_fail env tgt addr block i c b e hg hr hb] at h
          exact Except.noConfusion h
        | ok resp =>
          cases hs : env.send c resp addr with
          | error e =>
            rw [streamLoop_send_fail env tgt addr block i c b resp e hg hr hb hs] at h
            exact Except.noConfusion h
          | ok u =>
            cases u
            rw [streamLoop_send_ok env tgt addr block i c b resp hg hr hb hs] at h
            have hmem : b ∈ env.store := by
              rcases List.getElem?_eq_some_iff.mp hr with ⟨hlt, hget⟩
              exact hget ▸ List.getElem_mem hlt
            rcases ih b (i + 1) (c + 1) (by omega) h with h1 | h2
            · exact Or.inr ⟨b, hmem, h1⟩
            · exact Or.inr h2

/-- If the loop returns a `nil` error, its guard matched: the target equals
the current block's hash or the hash of some block of the store. -/
lemma streamLoop_ok_mem (env : StreamEnv) (tgt : Digest) (addr : Addr)
    (block : SkipBlock) (i c : Nat)
    (h : (streamLoop env tgt addr block i c).2 = .ok ()) :
    block.hash = tgt ∨ ∃ b ∈ env.store, b.hash = tgt :=
  streamLoop_ok_mem_aux env tgt addr (env.store.length + 1 - i) block i c le_rfl h

/-- The loop's result is identical for any two values of the cancellation
signal, all other collaborators equal: no iteration consults the signal. -/
lemma streamLoop_cancelled_aux (s : List SkipBlock)
    (p : SkipBlock → Except Err BlockProto) (g : Digest → Except Err Chain)
    (pa : Chain → Except Err PackedAny)
    (sd : Nat → BlockResponse → Addr → Except Err Unit)
    (rv : Except Err (Addr × Message)) (c1 c2 : Nat → Bool)
    (tgt : Digest) (addr : Addr) :
    ∀ (n : Nat) (block : SkipBlock) (i c : Nat), s.length + 1 - i ≤ n →
      streamLoop ⟨s, p, g, pa, sd, rv, c1⟩ tgt addr block i c =
        streamLoop ⟨s, p, g, pa, sd, rv, c2⟩ tgt addr block i c := by
  intro n
  induction n with
  | zero =>
    intro block i c hle
    by_cases hg : block.hash = tgt
    · rw [streamLoop_done _ tgt addr block i c hg, streamLoop_done _ tgt addr block i c hg]
    · have hr : s[i]? = none := List.getElem?_eq_none (by omega)
      rw [streamLoop_read_fail ⟨s, p, g, pa, sd, rv, c1⟩ tgt addr block i c hg hr,
          streamLoop_read_fail ⟨s, p, g, pa, sd, rv, c2⟩ tgt addr block i c hg hr]
  | succ n ih =>
    intro block i c hle
    by_cases hg : block.hash = tgt
    · rw [streamLoop_done _ tgt addr block i c hg, streamLoop_done _ tgt addr block i c hg]
    · cases hr : s[i]? with
      | none =>
        rw [streamLoop_read_fail ⟨s, p, g, pa, sd, rv, c1⟩ tgt addr block i c hg hr,
            streamLoop_read_fail ⟨s, p, g, pa, sd, rv, c2⟩ tgt addr block i c hg hr]
      | some b =>
        have hlen : i < s.length := by
          by_contra hge
          rw [List.getElem?_eq_none (by omega)] at hr
          exact Option.noConfusion hr
        cases hb : buildResponse ⟨s, p, g, pa, sd, rv, c1⟩ b with
        | error e =>
          rw [streamLoop_build_fail ⟨s, p, g, pa, sd, rv, c1⟩ tgt addr block i c b e hg hr hb,
              streamLoop_build_fail ⟨s, p, g, pa, sd, rv, c2⟩ tgt addr block i c b e hg hr hb]
        | ok resp =>
          cases hs : sd c resp addr with
          | error e =>
            rw [streamLoop_send_fail ⟨s, p, g, pa, sd, rv, c1⟩ tgt addr block i c b resp e hg hr hb hs,
                streamLoop_send_fail ⟨s, p, g, pa, sd, rv, c2⟩ tgt addr block i c b resp e hg hr hb hs]
          | ok u =>
            cases u
            rw [streamLoop_send_ok ⟨s, p, g, pa, sd, rv, c1⟩ tgt addr block i c b resp hg hr hb hs,
                streamLoop_send_ok ⟨s, p, g, pa, sd, rv, c2⟩ tgt addr block i c b resp hg hr hb hs,
                ih b (i + 1) (c + 1) (by omega)]

end handler

/-- C1: with a store holding blocks 0..5 (non-zero, pairwise target-distinct
hashes, as the store invariant guarantees) and a first message requesting the
hash of block 5, `Stream` sends exactly six responses, for indices 0..5 in
increasing order; response 0 carries no chain, responses 1..5 each carry the
packed chain obtained from the consensus engine for that block's hash, and
`Stream` returns without error. -/
theorem stream_catchup_six_blocks
    (b0 b1 b2 b3 b4 b5 : SkipBlock) (a : Addr)
    (pk : SkipBlock → BlockProto) (gc : Digest → Chain) (pa : Chain → PackedAny)
    (hi0 : b0.index = 0) (hi1 : b1.index = 1) (hi2 : b2.index = 2)
    (hi3 : b3.index = 3) (hi4 : b4.index = 4) (hi5 : b5.index = 5)
    (hz0 : b0.hash ≠ zeroDigest) (hz1 : b1.hash ≠ zeroDigest)
    (hz2 : b2.hash ≠ zeroDigest) (hz3 : b3.hash ≠ zeroDigest)
    (hz4 : b4.hash ≠ zeroDigest) (hz5 : b5.hash ≠ zeroDigest)
    (hd0 : b0.hash ≠ b5.hash) (hd1 : b1.hash ≠ b5.hash) (hd2 : b2.hash ≠ b5.hash)
    (hd3 : b3.hash ≠ b5.hash) (hd4 : b4.hash ≠ b5.hash) :
    handler.Stream (catchupEnv b0 b1 b2 b3 b4 b5 a pk gc pa) =
      ([{ block := pk b0, chain := none },
        { block := pk b1, chain := some (pa (gc b1.hash)) },
        { block := pk b2, chain := some (pa (gc b2.hash)) },
        { block := pk b3, chain := some (pa (gc b3.hash)) },
        { block := pk b4, chain := some (pa (gc b4.hash)) },
        { block := pk b5, chain := some (pa (gc b5.hash)) }],
       .ok ()) := by
  show handler.streamLoop (catchupEnv b0 b1 b2 b3 b4 b5 a pk gc pa) b5.hash a
    zeroSkipBlock 0 0 = _
  rw [handler.streamLoop_send_ok (catchupEnv b0 b1 b2 b3 b4 b5 a pk gc pa) b5.hash a
        zeroSkipBlock 0 0 b0
        { block := pk b0, chain := none }
        (fun h => hz5 h.symm) rfl
        (handler.buildResponse_genesis (catchupEnv b0 b1 b2 b3 b4 b5 a pk gc pa) b0
          (pk b0) rfl hi0) rfl,
      handler.streamLoop_send_ok (catchupEnv b0 b1 b2 b3 b4 b5 a pk gc pa) b5.hash a
        b0 (0+1) (0+1) b1
        { block := pk b1, chain := some (pa (gc b1.hash)) }
        hd0 rfl
        (handler.buildResponse_with_chain (catchupEnv b0 b1 b2 b3 b4 b5 a pk gc pa) b1
          (pk b1) (gc b1.hash) (pa (gc b1.hash))
          rfl (by omega) rfl rfl) rfl,
      handler.streamLoop_send_ok (catchupEnv b0 b1 b2 b3 b4 b5 a pk gc pa) b5.hash a
        b1 (0+1+1) (0+1+1) b2
        { block := pk b2, chain := some (pa (gc b2.hash)) }
        hd1 rfl
        (handler.buildResponse_with_chain (catchupEnv b0 b1 b2 b3 b4 b5 a pk gc pa) b2
          (pk b2) (gc b2.hash) (pa (gc b2.hash))
          rfl (by omega) rfl rfl) rfl,
      handler.streamLoop_send_ok (catchupEnv b0 b1 b2 b3 b4 b5 a pk gc pa) b5.hash a
        b2 (0+1+1+1) (0+1+1+1) b3
        { block := pk b3, chain := some (pa (gc b3.hash)) }
        hd2 rfl
        (handler.buildResponse_with_chain (catchupEnv b0 b1 b2 b3 b4 b5 a pk gc pa) b3
          (pk b3) (gc b3.hash) (pa (gc b3.hash))
          rfl (by omega) rfl rfl) rfl,
      handler.streamLoop_send_ok (catchupEnv b0 b1 b2 b3 b4 b5 a pk gc pa) b5.hash a
        b3 (0+1+1+1+1) (0+1+1+1+1) b4
        { block := pk b4, chain := some (pa (gc b4.hash)) }
        hd3 rfl
        (handler.buildResponse_with_chain (catchupEnv b0 b1 b2 b3 b4 b5 a pk gc pa) b4
          (pk b4) (gc b4.hash) (pa (gc b4.hash))
          rfl (by omega) rfl rfl) rfl,
      handler.streamLoop_send_ok (catchupEnv b0 b1 b2 b3 b4 b5 a pk gc pa) b5.hash a
        b4 (0+1+1+1+1+1) (0+1+1+1+1+1) b5
        { block := pk b5, chain := some (pa (gc b5.hash)) }
        hd4 rfl
        (handler.buildResponse_with_chain (catchupEnv b0 b1 b2 b3 b4 b5 a pk gc pa) b5
          (pk b5) (gc b5.hash) (pa (gc b5.hash))
          rfl (by omega) rfl rfl) rfl,
      handler.streamLoop_done (catchupEnv b0 b1 b2 b3 b4 b5 a pk gc pa) b5.hash a
        b5 (0+1+1+1+1+1+1) (0+1+1+1+1+1+1) rfl]

/-- C1 witness: the catch-up scenario at concrete blocks 0..5. -/
theorem stream_catchup_six_blocks_witness :
    handler.Stream (catchupEnv (demoBlock 0) (demoBlock 1) (demoBlock 2) (demoBlock 3)
        (demoBlock 4) (demoBlock 5) 0 demoPack demoChain demoPackAny) =
      ([{ block := demoPack (demoBlock 0), chain := none },
        { block := demoPack (demoBlock 1), chain := some (demoPackAny (demoChain (demoBlock 1).hash)) },
        { block := demoPack (demoBlock 2), chain := some (demoPackAny (demoChain (demoBlock 2).hash)) },
        { block := demoPack (demoBlock 3), chain := some (demoPackAny (demoChain (demoBlock 3).hash)) },
        { block := demoPack (demoBlock 4), chain := some (demoPackAny (demoChain (demoBlock 4).hash)) },
        { block := demoPack (demoBlock 5), chain := some (demoPackAny (demoChain (demoBlock 5).hash)) }],
       .ok ()) :=
  stream_catchup_six_blocks (demoBlock 0) (demoBlock 1) (demoBlock 2) (demoBlock 3)
    (demoBlock 4) (demoBlock 5) 0 demoPack demoChain demoPackAny
    rfl rfl rfl rfl rfl rfl
    (by decide) (by decide) (by decide) (by decide) (by decide) (by decide)
    (by decide) (by decide) (by decide) (by decide) (by decide)

/-- C2 counterexample: the zero digest is the hash of no block of this store
(whose single block has a non-zero hash), yet `Stream` returns `nil` — a
clean success — after zero responses, because the loop guard compares the
zero-valued block's hash against the target before the first read.  The claim
that `Stream` never returns `nil` for a target absent from the store is
therefore false as stated. -/
theorem stream_unknown_target_counterexample :
    (∀ b ∈ envC2.store, b.hash ≠ zeroDigest) ∧
    handler.Stream envC2 = ([], .ok ()) := by
  constructor
  · decide
  · exact handler.streamLoop_done envC2 zeroDigest 0 zeroSkipBlock 0 0 rfl

/-- C2 (amended): for every target that is neither the zero digest nor the
hash of any block of the local store, `Stream` never returns `nil`: after the
responses for the blocks preceding the end of the store (or fewer, on a
collaborator failure) it returns a non-nil error. -/
theorem stream_unknown_target_errors (env : StreamEnv) (a : Addr) (tgt : Digest)
    (hrecv : env.recv = .ok (a, .blockRequest tgt))
    (hz : tgt ≠ zeroDigest)
    (hmem : ∀ b ∈ env.store, b.hash ≠ tgt) :
    ∃ e, (handler.Stream env).2 = .error e := by
  simp only [handler.Stream, hrecv]
  cases h : (handler.streamLoop env tgt a zeroSkipBlock 0 0).2 with
  | error e => exact ⟨e, rfl⟩
  | ok u =>
    cases u
    rcases handler.streamLoop_ok_mem env tgt a zeroSkipBlock 0 0 h with h1 | ⟨b, hb, hbe⟩
    · exact absurd h1.symm hz
    · exact absurd hbe (hmem b hb)

/-- C2 witness: requesting a non-zero hash stored nowhere ends in an error. -/
theorem stream_unknown_target_errors_witness :
    ∃ e, (handler.Stream envC2w).2 = .error e :=
  stream_unknown_target_errors envC2w 0 (demoHash 7) rfl (by decide) (by decide)

/-- C3: when the first message requests the hash of the locally stored
genesis block (index 0, non-zero hash), `Stream` sends exactly one response,
carrying the packed genesis block and no chain, and returns without error. -/
theorem stream_genesis_target (env : StreamEnv) (a : Addr) (g : SkipBlock)
    (p : BlockProto) (rest : List SkipBlock)
    (hstore : env.store = g :: rest)
    (hrecv : env.recv = .ok (a, .blockRequest g.hash))
    (hidx : g.index = 0) (hnz : g.hash ≠ zeroDigest)
    (hpack : env.pack g = .ok p)
    (hsend : env.send 0 { block := p, chain := none } a = .ok ()) :
    handler.Stream env = ([{ block := p, chain := none }], .ok ()) := by
  simp only [handler.Stream, hrecv]
  rw [handler.streamLoop_send_ok env g.hash a zeroSkipBlock 0 0 g
        { block := p, chain := none }
        (fun h => hnz h.symm) (by rw [hstore, List.getElem?_cons_zero])
        (handler.buildResponse_genesis env g p hpack hidx) hsend,
      handler.streamLoop_done env g.hash a g (0+1) (0+1) rfl]

/-- C3 witness: the genesis request on a one-block store. -/
theorem stream_genesis_target_witness :
    handler.Stream envC3 =
      ([{ block := demoPack (demoBlock 0), chain := none }], .ok ()) :=
  stream_genesis_target envC3 4 (demoBlock 0) (demoPack (demoBlock 0)) []
    rfl rfl rfl (by decide) rfl rfl

/-- C4: when the first receive fails, or the first message is of any type
other than `*BlockRequest`, `Stream` fails with an error and sends no
response. -/
theorem stream_invalid_first_message (env : StreamEnv)
    (h : (∃ e, env.recv = .error e) ∨
         ∃ a m, env.recv = .ok (a, m) ∧ m.isBlockRequest = false) :
    (handler.Stream env).1 = [] ∧ ∃ e, (handler.Stream env).2 = .error e := by
  rcases h with ⟨e, he⟩ | ⟨a, m, he, hm⟩
  · have hres : handler.Stream env = ([], .error (.couldntReceive e)) := by
      simp only [handler.Stream, he]
    rw [hres]
    exact ⟨rfl, ⟨.couldntReceive e, rfl⟩⟩
  · cases m with
    | blockRequest tgt => simp [Message.isBlockRequest] at hm
    | propagateGenesis gbytes =>
      have hres : handler.Stream env = ([], .error .invalidMsgType) := by
        simp only [handler.Stream, he]
      rw [hres]
      exact ⟨rfl, ⟨.invalidMsgType, rfl⟩⟩
    | other tag =>
      have hres : handler.Stream env = ([], .error .invalidMsgType) := by
        simp only [handler.Stream, he]
      rw [hres]
      exact ⟨rfl, ⟨.invalidMsgType, rfl⟩⟩

/-- C4 witness: a failing first receive yields an error and no responses. -/
theorem stream_invalid_first_message_witness :
    (handler.Stream envC4).1 = [] ∧ ∃ e, (handler.Stream envC4).2 = .error e :=
  stream_invalid_first_message envC4 (Or.inl ⟨.fault 1, rfl⟩)

/-- C5: for a `*PropagateGenesis` request, `Process` returns the decode error
and leaves the store untouched when decoding fails; when decoding succeeds it
returns success with no payload and the store extended by the insert, or the
wrapped insert error with the store untouched. -/
theorem process_propagate_genesis (d : List Nat → Except Err SkipBlock)
    (ins : SkipBlock → List SkipBlock → Except Err (List SkipBlock))
    (s : List SkipBlock) (bs : List Nat) :
    (∀ e, d bs = .error e →
      handler.Process d ins s (.propagateGenesis bs) = (s, none, some (.decodeErr e))) ∧
    (∀ g, d bs = .ok g →
      (∀ s2, ins g s = .ok s2 →
        handler.Process d ins s (.propagateGenesis bs) = (s2, none, none)) ∧
      (∀ e, ins g s = .error e →
        handler.Process d ins s (.propagateGenesis bs) = (s, none, some (.insertErr e)))) := by
  refine ⟨fun e he => ?_, fun g hg => ⟨fun s2 hs2 => ?_, fun e he => ?_⟩⟩ <;>
    simp only [handler.Process, *]

/-- C5 witness: a failing decode is returned wrapped and nothing is
inserted. -/
theorem process_propagate_genesis_witness :
    handler.Process (fun _ => .error (.fault 2)) (fun _ s => .ok s) []
      (.propagateGenesis [1, 2, 3]) =
      ([], none, some (.decodeErr (.fault 2))) :=
  (process_propagate_genesis (fun _ => .error (.fault 2))
    (fun _ s => .ok s) [] [1, 2, 3]).1 (.fault 2) rfl

/-- C6: propagating the same genesis bytes twice through `Process` succeeds
both times — the second insert finds the identical genesis and is treated as
success — and the store ends with exactly one genesis block.  The decoded
genesis is a well-formed genesis block: index 0 and, per spec section 3, a
zero `previousHash` (so the insert's genesis linkage check passes). -/
theorem process_genesis_idempotent (d : List Nat → Except Err SkipBlock)
    (bs : List Nat) (g : SkipBlock)
    (hd : d bs = .ok g) (hidx : g.index = 0) (hprev : g.previousHash = zeroDigest) :
    handler.Process d operations.insertBlock [] (.propagateGenesis bs) = ([g], none, none) ∧
    handler.Process d operations.insertBlock [g] (.propagateGenesis bs) = ([g], none, none) ∧
    List.countP (fun b => b.index == 0) [g] = 1 := by
  have h1 : operations.insertBlock g [] = .ok [g] := by
    rw [operations.insertBlock, if_pos hidx, if_pos (Or.inr hprev)]
    rfl
  have h2 : operations.insertBlock g [g] = .ok [g] := by
    rw [operations.insertBlock, if_pos hidx, if_pos (Or.inr hprev),
      List.getElem?_cons_zero]
    simp
  refine ⟨?_, ?_, ?_⟩
  · simp only [handler.Process, hd, h1]
  · simp only [handler.Process, hd, h2]
  · simp [hidx]

/-- C6 witness: the concrete genesis block propagated twice. -/
theorem process_genesis_idempotent_witness :
    handler.Process (fun _ => .ok (demoBlock 0)) operations.insertBlock []
      (.propagateGenesis [9]) = ([demoBlock 0], none, none) ∧
    handler.Process (fun _ => .ok (demoBlock 0)) operations.insertBlock [demoBlock 0]
      (.propagateGenesis [9]) = ([demoBlock 0], none, none) ∧
    List.countP (fun b => b.index == 0) [demoBlock 0] = 1 :=
  process_genesis_idempotent (fun _ => .ok (demoBlock 0)) [9] (demoBlock 0) rfl rfl rfl

/-- C7 counterexample: on a stream whose caller has cancelled before every
iteration (`envC7.cancelled` is constantly `true`), `Stream` still reads both
blocks and sends both responses.  This falsifies the claim that cancellation
is checked before each read and that no further response is sent once
cancelled: the loop of `handler.Stream` contains no cancellation check, and
the only context it ever builds is `context.Background()`. -/
theorem stream_cancelled_counterexample :
    envC7.cancelled 0 = true ∧
    handler.Stream envC7 =
      ([{ block := demoPack (demoBlock 0), chain := none },
        { block := demoPack (demoBlock 1),
          chain := some (demoPackAny (demoChain (demoBlock 1).hash)) }],
       .ok ()) := by
  constructor
  · rfl
  · show handler.streamLoop envC7 (demoBlock 1).hash 0 zeroSkipBlock 0 0 = _
    rw [handler.streamLoop_send_ok envC7 (demoBlock 1).hash 0 zeroSkipBlock 0 0 (demoBlock 0)
          { block := demoPack (demoBlock 0), chain := none }
          (by decide) rfl
          (handler.buildResponse_genesis envC7 (demoBlock 0) (demoPack (demoBlock 0)) rfl rfl)
          rfl,
        handler.streamLoop_send_ok envC7 (demoBlock 1).hash 0 (demoBlock 0) (0+1) (0+1) (demoBlock 1)
          { block := demoPack (demoBlock 1),
            chain := some (demoPackAny (demoChain (demoBlock 1).hash)) }
          (by decide) rfl
          (handler.buildResponse_with_chain envC7 (demoBlock 1) (demoPack (demoBlock 1))
            (demoChain (demoBlock 1).hash) (demoPackAny (demoChain (demoBlock 1).hash))
            rfl (by decide) rfl rfl)
          rfl,
        handler.streamLoop_done envC7 (demoBlock 1).hash 0 (demoBlock 1) (0+1+1) (0+1+1) rfl]

/-- C7 (amended): the catch-up loop performs no cancellation check at all:
`Stream`'s responses and return value are identical for any two environments
that agree on the store, encoder, consensus engine, transport and received
message but carry arbitrary different cancellation signals.  Caller-initiated
cancellation can reach the handler only indirectly, by making the receive or
a send fail. -/
theorem stream_ignores_cancellation (e1 e2 : StreamEnv)
    (hstore : e1.store = e2.store) (hpack : e1.pack = e2.pack)
    (hchain : e1.getChain = e2.getChain) (hpackAny : e1.packAny = e2.packAny)
    (hsend : e1.send = e2.send) (hrecv : e1.recv = e2.recv) :
    handler.Stream e1 = handler.Stream e2 := by
  cases e1 with
  | mk s1 p1 g1 pa1 sd1 rv1 c1 =>
    cases e2 with
    | mk s2 p2 g2 pa2 sd2 rv2 c2 =>
      dsimp only at hstore hpack hchain hpackAny hsend hrecv
      subst hstore hpack hchain hpackAny hsend hrecv
      simp only [handler.Stream]
      cases rv1 with
      | error e => rfl
      | ok am =>
        cases am with
        | mk a m =>
          cases m with
          | blockRequest tgt =>
            exact handler.streamLoop_cancelled_aux s1 p1 g1 pa1 sd1
              (.ok (a, .blockRequest tgt)) c1 c2 tgt a (s1.length + 1) zeroSkipBlock 0 0
              (by omega)
          | propagateGenesis gb => rfl
          | other t => rfl

/-- C7 witness: two concrete environments differing only in the cancellation
signal produce the same stream outcome. -/
theorem stream_ignores_cancellation_witness :
    handler.Stream (demoEnv [demoBlock 0] (.ok (0, .blockRequest (demoBlock 0).hash)) (fun _ => true)) =
      handler.Stream (demoEnv [demoBlock 0] (.ok (0, .blockRequest (demoBlock 0).hash)) (fun _ => false)) :=
  stream_ignores_cancellation
    (demoEnv [demoBlock 0] (.ok (0, .blockRequest (demoBlock 0).hash)) (fun _ => true))
    (demoEnv [demoBlock 0] (.ok (0, .blockRequest (demoBlock 0).hash)) (fun _ => false))
    rfl rfl rfl rfl rfl rfl

/-- C8: whenever a send fails, the loop of `Stream` aborts immediately with
the wrapped send error: it contributes no response, performs no retry of the
send, and attempts no further send — whatever the transport would answer at
later attempts. -/
theorem stream_send_failure_aborts (env : StreamEnv) (tgt : Digest) (addr : Addr)
    (block b : SkipBlock) (i c : Nat) (resp : BlockResponse) (e : Err)
    (hg : block.hash ≠ tgt) (hr : env.store[i]? = some b)
    (hresp : handler.buildResponse env b = .ok resp)
    (hsend : env.send c resp addr = .error e) :
    handler.streamLoop env tgt addr block i c = ([], .error (.sendErr e)) :=
  handler.streamLoop_send_fail env tgt addr block i c b resp e hg hr hresp hsend

/-- C8 witness: a transport failing the very first send makes the loop return
that send error with no responses recorded. -/
theorem stream_send_failure_aborts_witness :
    handler.streamLoop envC8 (demoBlock 0).hash 0 zeroSkipBlock 0 0 =
      ([], .error (.sendErr (.fault 3))) :=
  stream_send_failure_aborts envC8 (demoBlock 0).hash 0 zeroSkipBlock (demoBlock 0) 0 0
    { block := demoPack (demoBlock 0), chain := none } (.fault 3)
    (by decide) rfl rfl rfl

/-- C9: when the first message is a `*BlockRequest` whose target equals the
all-zero digest — the hash field of a zero-valued `SkipBlock` — `Stream`
returns `nil` immediately: the loop guard matches before the first read, so
no block is read and no response is sent, in any environment whatsoever. -/
theorem stream_zero_target (env : StreamEnv) (a : Addr)
    (h : env.recv = .ok (a, .blockRequest zeroDigest)) :
    handler.Stream env = ([], .ok ()) := by
  simp only [handler.Stream, h]
  exact handler.streamLoop_done env zeroDigest a zeroSkipBlock 0 0 rfl

/-- C9 witness: even with a non-empty store and every collaborator failing —
so that any read, pack or send would surface as an error — the zero-digest
request returns `nil` with no responses. -/
theorem stream_zero_target_witness :
    handler.Stream envC9 = ([], .ok ()) :=
  stream_zero_target envC9 3 rfl

/-- C10: for every request message that is not a `*PropagateGenesis`,
`Process` returns a `nil` reply and a non-nil error, with the store unchanged
and independently of the decode and insert collaborators — so neither is
invoked. -/
theorem process_unknown_message (d : List Nat → Except Err SkipBlock)
    (ins : SkipBlock → List SkipBlock → Except Err (List SkipBlock))
    (s : List SkipBlock) (m : Message)
    (h : m.isPropagateGenesis = false) :
    handler.Process d ins s m = (s, none, some .unknownMsgType) := by
  cases m with
  | propagateGenesis gb => simp [Message.isPropagateGenesis] at h
  | blockRequest tgt => rfl
  | other t => rfl

/-- C10 witness: a `*BlockRequest` sent to the one-shot RPC surface is
rejected with the unknown-message error and an unchanged store. -/
theorem process_unknown_message_witness :
    handler.Process (fun _ => .error (.fault 8)) (fun _ s => .ok s) [demoBlock 0]
      (.blockRequest []) = ([demoBlock 0], none, some .unknownMsgType) :=
  process_unknown_message (fun _ => .error (.fault 8)) (fun _ s => .ok s)
    [demoBlock 0] (.blockRequest []) rfl

end Skipchain
